import Mathlib

/-!
Verification development for `tounn_example/tounn_fixed_beam.py`, a script
performing topology optimization of a 2D beam with a neural-network density
predictor coupled to a finite-element solve.

The script is shallowly embedded as follows.

* The module-level parameters (lines 42-61 of the script) become the
  `Params` structure with `defaultParams` holding the literal values;
  Python floats are modelled as rationals.
* The numerical results of the FEniCS solves and of the network forward
  pass are inputs of the model, collected in an `Oracle` (per-epoch strain
  energy vectors and predicted densities); the orchestration around them —
  state updates, the alpha schedule, the training record, the loop variable
  binding, CSV/metadata production — is embedded faithfully as pure
  functions (`initState`, `stepIter`, `runEpochs`, `programRun`).
* The order of the side-effecting statements inside one loop iteration
  (lines 140-190) is embedded as the event list `iterationEvents`.
* The network module `nn/top_optimizer_nn.py` and the helpers in
  `utils/utils.py` are not part of the sources at hand; the definitions
  modelling them carry a doc comment saying so and follow the spec.
-/

/-- Events of one iteration of the training loop, one per side-effecting
statement of the loop body (lines 140-190 of the script). -/
inductive Ev where
  | zeroGrad
  | predictDensity
  | assignDensity
  | solveFE
  | projectPsi
  | computeObjective
  | computeLoss
  | backpropagate
  | annealPenalty
  | clipGradients
  | optimizerStep
  | countGrey
  | writeXdmf
  | appendLog
  | printLog
deriving DecidableEq, BEq, Repr

/-- The loop body of lines 140-190, in source order:
`optimizer.zero_grad()` (140), `top_optimizer(mid_points)` (143),
`density.vector()[:] = density_new_np` (149), `solver.solve()` (150),
`project(psi(u_sol), D)` (153), `objective = ...` (156),
`loss = loss_function(...)` (159), `loss.backward(...)` (162),
`alpha = min(alpha_max, alpha + alpha_increment)` (165),
`clip_grad_norm_(...)` (169), `optimizer.step()` (171),
grey-element count (174-175), `xdmf.write(density, epoch)` (178),
`training_data.append(...)` (185), progress print (188-190). -/
def iterationEvents : List Ev :=
  [Ev.zeroGrad, Ev.predictDensity, Ev.assignDensity, Ev.solveFE,
   Ev.projectPsi, Ev.computeObjective, Ev.computeLoss, Ev.backpropagate,
   Ev.annealPenalty, Ev.clipGradients, Ev.optimizerStep, Ev.countGrey,
   Ev.writeXdmf, Ev.appendLog, Ev.printLog]

/-- The epochs visited by the training loop `for epoch in range(1, max_epochs)`
(line 137). -/
def loopEpochs (maxEpochs : ℕ) : List ℕ :=
  List.range' 1 (maxEpochs - 1)

/-- Run parameters of the script (lines 42-61). Floats are modelled as
rationals; `penal = 3.0` is integral and is kept as the natural exponent 3. -/
structure Params where
  volumeRatio : ℚ
  penal : ℕ
  learningRate : ℚ
  numbersOfLayers : ℕ
  nrmThreshold : ℚ
  minEpochs : ℕ
  maxEpochs : ℕ
  alphaIncrement : ℚ
deriving DecidableEq, Repr

/-- The literal parameter values of lines 42-61. -/
def defaultParams : Params :=
  { volumeRatio := 3/10
    penal := 3
    learningRate := 1/100
    numbersOfLayers := 5
    nrmThreshold := 1/10
    minEpochs := 20
    maxEpochs := 500
    alphaIncrement := 1/20 }

/-- `alpha_max = 100 * volume_ratio` (line 59). -/
def alphaMax (p : Params) : ℚ := 100 * p.volumeRatio

/-- Numerical inputs of the run that the script obtains from FEniCS and from
the network forward pass: the mesh cell count, the summed strain energy of
the reference solve (line 117), and, per epoch, the projected strain-energy
vector (line 153) and the predicted density vector (line 143). -/
structure Oracle where
  nCells : ℕ
  psi0 : ℚ
  psiVec : ℕ → List ℚ
  predict : ℕ → List ℚ

/-- `np.average` of a vector: sum divided by length. -/
def listAvg (l : List ℚ) : ℚ := l.sum / l.length

/-- Arguments of one `loss_function(...)` call (line 159), as far as the
claims need them: the epoch, and the `obj_0` and `alpha` values passed. -/
structure LossArgs where
  epoch : ℕ
  obj0Used : ℚ
  alphaUsed : ℚ
deriving DecidableEq, Repr

/-- Mutable state of the run: the penalty weight `alpha`, the reference
objective `obj_0`, the FE density vector, the Python binding of the loop
variable `epoch` (unbound before the loop runs), the `training_data` list,
the ghost log of `loss_function` calls, and the epochs written to XDMF. -/
structure LoopState where
  alpha : ℚ
  obj0 : ℚ
  densityVec : List ℚ
  epochVar : Option ℕ
  trainingData : List (ℕ × ℚ × ℚ)
  lossCalls : List LossArgs
  xdmfWrites : List ℕ
deriving DecidableEq, Repr

/-- State after the pre-loop section (lines 61 and 112-134):
`alpha = alpha_increment`; the density vector is set uniformly to `0.5`
(line 113 — line 112 setting it to `volume_ratio` is commented out); the
reference solve yields `psi_0` and `obj_0 = volume_ratio**penal * psi_0`
(line 118); `xdmf.write(density, 0)` (line 123); `training_data` starts
with the epoch-0 record (line 124); the loop variable is unbound. -/
def initState (o : Oracle) (p : Params) : LoopState :=
  let d : List ℚ := List.replicate o.nCells (1/2)
  let obj0 : ℚ := p.volumeRatio ^ p.penal * o.psi0
  { alpha := p.alphaIncrement
    obj0 := obj0
    densityVec := d
    epochVar := none
    trainingData := [(0, obj0, listAvg d)]
    lossCalls := []
    xdmfWrites := [0] }

/-- One iteration of the training loop (lines 137-190): predict the density,
assign it to the FE field, solve, form `objective = density**(2*penal) *
psi_vector` (line 156), call the loss with the current `obj_0` and `alpha`
(line 159), update `alpha = min(alpha_max, alpha + alpha_increment)`
(line 165), write the XDMF frame and append the training record
`[epoch, objective.sum(), density_avg]` (line 185). -/
def stepIter (o : Oracle) (p : Params) (s : LoopState) (epoch : ℕ) : LoopState :=
  let d : List ℚ := o.predict epoch
  let psiV : List ℚ := o.psiVec epoch
  let objective : List ℚ := List.zipWith (fun ρ ψ => ρ ^ (2 * p.penal) * ψ) d psiV
  let lossA : LossArgs := { epoch := epoch, obj0Used := s.obj0, alphaUsed := s.alpha }
  { alpha := min (alphaMax p) (s.alpha + p.alphaIncrement)
    obj0 := s.obj0
    densityVec := d
    epochVar := some epoch
    trainingData := s.trainingData ++ [(epoch, objective.sum, listAvg d)]
    lossCalls := s.lossCalls ++ [lossA]
    xdmfWrites := s.xdmfWrites ++ [epoch] }

/-- Run the loop body over a list of epochs. -/
def runEpochs (o : Oracle) (p : Params) (es : List ℕ) (s : LoopState) : LoopState :=
  es.foldl (stepIter o p) s

/-- Modelled from the spec: `write_to_csv` of `utils/utils.py` (not under
the sources at hand) writes the accumulated `training_data` as a CSV with
one row per entry `(epoch index, objective value, average density)`. -/
def writeToCsv (rows : List (ℕ × ℚ × ℚ)) : List (ℕ × ℚ × ℚ) := rows

/-- The metadata record passed to `write_optimization_data`
(lines 203-215); the wall-clock `Time` entry is not modelled. -/
structure Metadata where
  dimension : ℕ
  learningRate : ℚ
  numberOfLayers : ℕ
  volumeFraction : ℚ
  penalty : ℕ
  maxEpochs : ℕ
  minEpochs : ℕ
  epochs : ℕ
  clippingThreshold : ℚ
deriving DecidableEq, Repr

/-- The metadata write of lines 203-215. The dict literal reads the loop
variable `epoch`; if the loop body never ran, that name is unbound and
Python raises `NameError` before any file is written. -/
def mkMetadata (p : Params) (epochVar : Option ℕ) : Except String Metadata :=
  match epochVar with
  | none => Except.error "NameError: name epoch is not defined"
  | some e =>
    Except.ok
      { dimension := 2
        learningRate := p.learningRate
        numberOfLayers := p.numbersOfLayers
        volumeFraction := p.volumeRatio
        penalty := p.penal
        maxEpochs := p.maxEpochs
        minEpochs := p.minEpochs
        epochs := e
        clippingThreshold := p.nrmThreshold }

/-- Observable outcome of a run: the loop state at loop exit, the CSV rows
(line 200, written before the metadata), and the metadata write
(lines 203-215), which can fail. -/
structure RunOutput where
  finalState : LoopState
  csvRows : List (ℕ × ℚ × ℚ)
  metadata : Except String Metadata
deriving Repr

/-- The whole run: pre-loop initialization, the loop over
`range(1, max_epochs)`, the CSV write, then the metadata write. -/
def programRun (o : Oracle) (p : Params) : RunOutput :=
  let sFinal := runEpochs o p (loopEpochs p.maxEpochs) (initState o p)
  { finalState := sFinal
    csvRows := writeToCsv sFinal.trainingData
    metadata := mkMetadata p sFinal.epochVar }

/-- The penalty-weight schedule on its own: `alpha` starts at
`alpha_increment` (line 61) and each iteration performs
`alpha = min(alpha_max, alpha + alpha_increment)` (line 165). -/
def alphaAfter (p : Params) : ℕ → ℚ
  | 0 => p.alphaIncrement
  | n + 1 => min (alphaMax p) (alphaAfter p n + p.alphaIncrement)

/-- Grey-element count of line 174:
`sum(1 for rho in density_new_np if ((rho > 0.05) & (rho < 0.95)))`. -/
def greyElements (ds : List ℚ) : ℕ :=
  ds.foldl (fun acc ρ => if 1/20 < ρ ∧ ρ < 19/20 then acc + 1 else acc) 0

/-- Grey-element fraction of line 175: `grey_elements / len(density_new_np)`. -/
def relGreyElements (ds : List ℚ) : ℚ :=
  (greyElements ds : ℚ) / (ds.length : ℚ)

/-- The spec's wording for the grey fraction numerator: the number of cells
whose density is strictly greater than 0.05 and strictly less than 0.95. -/
def greyCountSpec (ds : List ℚ) : ℕ :=
  (ds.filter (fun ρ => decide (1/20 < ρ ∧ ρ < 19/20))).length

/-- Modelled from the spec: the final normalization layer of
`TopOptimizerNN` (`nn/top_optimizer_nn.py`, not under the sources at hand)
is a softmax over the raw outputs; the exponential is passed in as a
parameter `e` (any strictly positive function). -/
def softmax (e : ℚ → ℚ) (v : List ℚ) : List ℚ :=
  v.map (fun z => e z / (v.map e).sum)

/-- Dot product of two weight/input vectors. -/
def dotQ (w x : List ℚ) : ℚ := (List.zipWith (fun a b => a * b) w x).sum

/-- One dense layer: each output is a weight row dotted with the input plus
the bias entry. -/
def denseLayer (W : List (List ℚ)) (b : List ℚ) (x : List ℚ) : List ℚ :=
  List.zipWith (fun row bi => dotQ row x + bi) W b

/-- Parameters of the density predictor: hidden layers (weights and biases)
and the output layer feeding the softmax. -/
structure NNParams where
  hidden : List (List (List ℚ) × List ℚ)
  outW : List (List ℚ)
  outB : List ℚ
deriving DecidableEq, Repr

/-- Modelled from the spec: the forward pass of `TopOptimizerNN`
(`nn/top_optimizer_nn.py`, not under the sources at hand): hidden dense
layers with activation `a` in between, then an output dense layer, then the
softmax normalization (`use_softmax=True`, lines 99-102 of the script). -/
def topOptimizerForward (a e : ℚ → ℚ) (p : NNParams) (x : List ℚ) : List ℚ :=
  softmax e (denseLayer p.outW p.outB
    (p.hidden.foldl (fun v l => (denseLayer l.1 l.2 v).map a) x))

/-- Modelled from the spec: the network module object; its only state is
its parameter tensors (spec §3: the network parameters are the only state
the predictor carries). -/
structure TopOptimizerNN where
  params : NNParams
deriving DecidableEq, Repr

/-- A forward evaluation of the module: returns the predicted densities
together with the module state after the call. -/
def forwardEval (a e : ℚ → ℚ) (m : TopOptimizerNN) (x : List ℚ) :
    List ℚ × TopOptimizerNN :=
  (topOptimizerForward a e m.params x, m)

/-- Parameters for a run whose training loop body never executes:
`range(1, 1)` is empty. -/
def paramsZeroTraining : Params := { defaultParams with maxEpochs := 1 }

/-- A three-epoch parameter set for concrete evaluations. -/
def paramsThree : Params := { defaultParams with maxEpochs := 3 }

/-- A concrete oracle for concrete evaluations: two cells, reference strain
energy 2, constant unit strain-energy vector, constant half densities. -/
def testOracle : Oracle :=
  { nCells := 2
    psi0 := 2
    psiVec := fun _ => [1, 1]
    predict := fun _ => [1/2, 1/2] }

/-! ## Helper lemmas -/

/-- Unfolding `runEpochs` over a cons cell. -/
theorem runEpochs_cons (o : Oracle) (p : Params) (e : ℕ) (es : List ℕ)
    (s : LoopState) :
    runEpochs o p (e :: es) s = runEpochs o p es (stepIter o p s e) := rfl

/-- The penalty weight stays below `alpha_max` provided the initial value
`alpha_increment` does. -/
theorem alphaAfter_le_alphaMax (p : Params)
    (h1 : p.alphaIncrement ≤ alphaMax p) :
    ∀ n, alphaAfter p n ≤ alphaMax p
  | 0 => h1
  | _ + 1 => min_le_left _ _

/-- The penalty-weight schedule is monotone when the increment is
nonnegative and does not start above the cap. -/
theorem alphaAfter_mono (p : Params) (h0 : 0 ≤ p.alphaIncrement)
    (h1 : p.alphaIncrement ≤ alphaMax p) (n : ℕ) :
    alphaAfter p n ≤ alphaAfter p (n + 1) :=
  le_min (alphaAfter_le_alphaMax p h1 n) (le_add_of_nonneg_right h0)

/-- The `alpha` component of the loop state follows `alphaAfter`. -/
theorem runEpochs_alpha (o : Oracle) (p : Params) (es : List ℕ) :
    ∀ (k : ℕ) (s : LoopState), s.alpha = alphaAfter p k →
      (runEpochs o p es s).alpha = alphaAfter p (k + es.length) := by
  induction es with
  | nil => intro k s h; simpa [runEpochs] using h
  | cons e es ih =>
    intro k s h
    rw [runEpochs_cons]
    have hstep : (stepIter o p s e).alpha = alphaAfter p (k + 1) := by
      simp [stepIter, alphaAfter, h]
    have := ih (k + 1) (stepIter o p s e) hstep
    rw [this, List.length_cons]
    congr 1
    omega

/-- The loop never modifies `obj_0`, and every recorded loss call used the
`obj_0` held in the state the loop started from. -/
theorem runEpochs_obj0_inv (o : Oracle) (p : Params) (es : List ℕ) :
    ∀ s : LoopState,
      (runEpochs o p es s).obj0 = s.obj0 ∧
      ∀ la ∈ (runEpochs o p es s).lossCalls,
        la ∈ s.lossCalls ∨ la.obj0Used = s.obj0 := by
  induction es with
  | nil => intro s; exact ⟨rfl, fun la hla => Or.inl hla⟩
  | cons e es ih =>
    intro s
    rw [runEpochs_cons]
    have h := ih (stepIter o p s e)
    refine ⟨h.1, fun la hla => ?_⟩
    rcases h.2 la hla with hmem | heq
    · have : la ∈ s.lossCalls ++
          [{ epoch := e, obj0Used := s.obj0, alphaUsed := s.alpha }] := hmem
      rcases List.mem_append.mp this with hl | hr
      · exact Or.inl hl
      · right
        have hla' : la =
            { epoch := e, obj0Used := s.obj0, alphaUsed := s.alpha } :=
          List.mem_singleton.mp hr
        rw [hla']
    · exact Or.inr heq

/-- `np.average` of a constant vector is that constant. -/
theorem listAvg_replicate (n : ℕ) (hn : 0 < n) (q : ℚ) :
    listAvg (List.replicate n q) = q := by
  have hn' : (n : ℚ) ≠ 0 := Nat.cast_ne_zero.mpr hn.ne'
  rw [listAvg, List.sum_replicate, List.length_replicate, nsmul_eq_mul,
    mul_comm, mul_div_assoc, div_self hn', mul_one]

/-- The fold of line 174 counts exactly the elements passing the filter. -/
theorem greyElements_foldl (ds : List ℚ) : ∀ acc : ℕ,
    ds.foldl (fun acc ρ => if 1/20 < ρ ∧ ρ < 19/20 then acc + 1 else acc) acc
      = acc + greyCountSpec ds := by
  induction ds with
  | nil => intro acc; simp [greyCountSpec]
  | cons x xs ih =>
    intro acc
    rw [List.foldl_cons]
    by_cases h : 1/20 < x ∧ x < 19/20
    · rw [if_pos h, ih]
      have hfil : greyCountSpec (x :: xs) = greyCountSpec xs + 1 := by
        simp only [greyCountSpec, List.filter_cons, if_pos (decide_eq_true h),
          List.length_cons]
      rw [hfil]
      omega
    · rw [if_neg h, ih]
      have hfil : greyCountSpec (x :: xs) = greyCountSpec xs := by
        simp only [greyCountSpec, List.filter_cons,
          if_neg (fun hc => h (of_decide_eq_true hc))]
      rw [hfil]

/-- All entries of a softmax output lie in `[0, 1]` whenever the
exponential is positive. -/
theorem softmax_mem_unitInterval (e : ℚ → ℚ) (he : ∀ z, 0 < e z)
    (v : List ℚ) : ∀ d ∈ softmax e v, 0 ≤ d ∧ d ≤ 1 := by
  intro d hd
  rcases List.mem_map.mp hd with ⟨z, hz, rfl⟩
  have hpos : ∀ y ∈ v.map e, 0 ≤ y := by
    intro y hy
    rcases List.mem_map.mp hy with ⟨w, _, rfl⟩
    exact (he w).le
  have hle : e z ≤ (v.map e).sum :=
    List.single_le_sum hpos _ (List.mem_map_of_mem e hz)
  have hS : 0 < (v.map e).sum := lt_of_lt_of_le (he z) hle
  exact ⟨div_nonneg (he z).le hS.le, (div_le_one hS).mpr hle⟩

/-- The metadata dict depends on `min_epochs` only through its
`Min epochs` entry. -/
theorem mkMetadata_minEpochs (p : Params) (a b : ℕ) (ev : Option ℕ) :
    mkMetadata { p with minEpochs := a } ev
      = Except.map (fun m => { m with minEpochs := a })
          (mkMetadata { p with minEpochs := b } ev) := by
  cases ev <;> rfl

/-! ## Claim theorems -/

/-- C1 (counterexample): the claim that the penalty weight `alpha` is
annealed only after the optimizer step of the iteration is false: in the
loop body of lines 140-190 the `alpha` update (line 165) comes before both
the gradient clipping (line 169) and `optimizer.step()` (line 171). -/
theorem c1_counterexample :
    List.indexOf Ev.annealPenalty iterationEvents
      < List.indexOf Ev.optimizerStep iterationEvents ∧
    ¬ List.indexOf Ev.optimizerStep iterationEvents
      < List.indexOf Ev.annealPenalty iterationEvents := by
  decide

/-- C1 (amended): in every training iteration the steps occur in the order
backpropagation, then penalty-weight annealing, then gradient clipping,
then parameter update, then logging; in particular `alpha` is annealed
after backpropagation but before the optimizer step of that iteration. -/
theorem c1_iteration_order :
    List.indexOf Ev.backpropagate iterationEvents
      < List.indexOf Ev.annealPenalty iterationEvents ∧
    List.indexOf Ev.annealPenalty iterationEvents
      < List.indexOf Ev.clipGradients iterationEvents ∧
    List.indexOf Ev.clipGradients iterationEvents
      < List.indexOf Ev.optimizerStep iterationEvents ∧
    List.indexOf Ev.optimizerStep iterationEvents
      < List.indexOf Ev.appendLog iterationEvents := by
  decide

/-- C4: each iteration of the training loop performs exactly one
finite-element solve and exactly one optimizer gradient step, and the loop
visits exactly the epochs `e` with `1 ≤ e < max_epochs`, i.e. it runs until
the epoch count reaches `max_epochs`. -/
theorem c4_one_solve_one_step :
    iterationEvents.count Ev.solveFE = 1 ∧
    iterationEvents.count Ev.optimizerStep = 1 ∧
    ∀ maxEpochs e : ℕ, e ∈ loopEpochs maxEpochs ↔ 1 ≤ e ∧ e < maxEpochs := by
  refine ⟨by decide, by decide, fun maxE e => ?_⟩
  simp only [loopEpochs, List.mem_range'_1]
  omega

/-- C8: the grey-element fraction of lines 174-175 equals the number of
cells whose predicted density is strictly greater than 0.05 and strictly
less than 0.95, divided by the total number of cells. -/
theorem c8_grey_fraction (ds : List ℚ) :
    greyElements ds = greyCountSpec ds ∧
    relGreyElements ds = (greyCountSpec ds : ℚ) / (ds.length : ℚ) := by
  have h : greyElements ds = greyCountSpec ds := by
    have := greyElements_foldl ds 0
    simpa [greyElements] using this
  exact ⟨h, by rw [relGreyElements, h]⟩

/-- C9: evaluating the density predictor twice with the same input and
unchanged parameters returns the same values, and a forward evaluation
leaves the module state unchanged. -/
theorem c9_forward_pure (a e : ℚ → ℚ) (m : TopOptimizerNN) (x : List ℚ) :
    (forwardEval a e m x).2 = m ∧
    (forwardEval a e (forwardEval a e m x).2 x).1 = (forwardEval a e m x).1 :=
  ⟨rfl, rfl⟩

/-- C10: the iteration-zero reference solve assigns the uniform density 0.5
to every cell, while `obj_0` scales the solved strain energy by
`volume_ratio ** penal`; the density used in the reference solve (0.5) and
the density constant in `obj_0` (`volume_ratio = 0.3`) differ. -/
theorem c10_reference_mismatch (o : Oracle) :
    (initState o defaultParams).densityVec = List.replicate o.nCells (1/2) ∧
    (initState o defaultParams).obj0
      = defaultParams.volumeRatio ^ defaultParams.penal * o.psi0 ∧
    ((1 : ℚ)/2) ≠ defaultParams.volumeRatio ∧
    defaultParams.volumeRatio = 3/10 :=
  ⟨rfl, rfl, by norm_num [defaultParams], rfl⟩

/-- C3: the penalty weight starts at `alpha_increment`, is monotonically
non-decreasing across epochs, never exceeds `alpha_max = 100 *
volume_ratio`, and the loop state's `alpha` follows this schedule. -/
theorem c3_alpha_schedule (o : Oracle) (p : Params)
    (h0 : 0 ≤ p.alphaIncrement) (h1 : p.alphaIncrement ≤ alphaMax p) :
    (initState o p).alpha = p.alphaIncrement ∧
    (∀ n, alphaAfter p n ≤ alphaAfter p (n + 1)) ∧
    (∀ n, alphaAfter p n ≤ alphaMax p) ∧
    ∀ es : List ℕ, (runEpochs o p es (initState o p)).alpha
      = alphaAfter p es.length := by
  refine ⟨rfl, fun n => alphaAfter_mono p h0 h1 n,
    fun n => alphaAfter_le_alphaMax p h1 n, fun es => ?_⟩
  have h := runEpochs_alpha o p es 0 (initState o p) rfl
  simpa using h

/-- C3 witness: the schedule hypotheses hold for the script's literal
parameters, and the bound holds at epoch 2. -/
theorem c3_witness :
    0 ≤ defaultParams.alphaIncrement ∧
    defaultParams.alphaIncrement ≤ alphaMax defaultParams ∧
    alphaAfter defaultParams 2 ≤ alphaMax defaultParams :=
  ⟨by norm_num [defaultParams], by norm_num [defaultParams, alphaMax],
    (c3_alpha_schedule testOracle defaultParams
      (by norm_num [defaultParams])
      (by norm_num [defaultParams, alphaMax])).2.2.1 2⟩

/-- C5: the objective-scaling reference `obj_0 = volume_ratio**penal *
psi_0` is fixed at initialization; the final state still holds that value
and every recorded `loss_function` call used exactly that value. -/
theorem c5_obj0_computed_once (o : Oracle) (p : Params) :
    (programRun o p).finalState.obj0 = p.volumeRatio ^ p.penal * o.psi0 ∧
    ∀ la ∈ (programRun o p).finalState.lossCalls,
      la.obj0Used = p.volumeRatio ^ p.penal * o.psi0 := by
  have h := runEpochs_obj0_inv o p (loopEpochs p.maxEpochs) (initState o p)
  refine ⟨h.1, fun la hla => ?_⟩
  rcases h.2 la hla with hmem | heq
  · simp [initState] at hmem
  · exact heq

/-- C5 witness: in a concrete three-epoch run, the epoch-1 loss call is
recorded and used `obj_0 = (3/10)^3 * 2 = 27/500`. -/
theorem c5_witness :
    ({ epoch := 1, obj0Used := 27/500, alphaUsed := 1/20 } : LossArgs)
      ∈ (programRun testOracle paramsThree).finalState.lossCalls ∧
    ({ epoch := 1, obj0Used := 27/500, alphaUsed := 1/20 } : LossArgs).obj0Used
      = paramsThree.volumeRatio ^ paramsThree.penal * testOracle.psi0 := by
  have hep : loopEpochs 3 = [1, 2] := rfl
  have hlist : (programRun testOracle paramsThree).finalState.lossCalls
      = [{ epoch := 1, obj0Used := 27/500, alphaUsed := 1/20 },
         { epoch := 2, obj0Used := 27/500, alphaUsed := 1/10 }] := by
    simp only [programRun, runEpochs, initState, testOracle,
      paramsThree, defaultParams]
    rw [hep]
    simp only [List.foldl_cons, List.foldl_nil, stepIter, alphaMax]
    norm_num
  have hmem : ({ epoch := 1, obj0Used := 27/500, alphaUsed := 1/20 } : LossArgs)
      ∈ (programRun testOracle paramsThree).finalState.lossCalls := by
    rw [hlist]
    exact List.mem_cons_self _ _
  exact ⟨hmem, (c5_obj0_computed_once testOracle paramsThree).2 _ hmem⟩

/-- C6: every density value produced by the predictor lies in `[0, 1]`,
guaranteed by the softmax final layer alone (for any activation, any
parameters and any input, given only that the exponential is positive). -/
theorem c6_density_in_unit_interval (a e : ℚ → ℚ) (p : NNParams)
    (x : List ℚ) (he : ∀ z, 0 < e z) :
    ∀ d ∈ topOptimizerForward a e p x, 0 ≤ d ∧ d ≤ 1 := by
  intro d hd
  exact softmax_mem_unitInterval e he _ d hd

/-- C6 witness: with the constant-one exponential and a concrete two-output
network evaluated at a concrete coordinate, every output is in `[0, 1]`. -/
theorem c6_witness :
    (∀ z : ℚ, 0 < (fun _ : ℚ => (1 : ℚ)) z) ∧
    ∀ d ∈ topOptimizerForward (fun z => z) (fun _ => 1)
        ⟨[], [[1], [1]], [0, 0]⟩ [0], 0 ≤ d ∧ d ≤ 1 :=
  ⟨fun _ => one_pos,
    c6_density_in_unit_interval (fun z => z) (fun _ => 1)
      ⟨[], [[1], [1]], [0, 0]⟩ [0] (fun _ => one_pos)⟩

/-- C2 (code bug): when the training loop body never executes
(`max_epochs = 1` makes `range(1, max_epochs)` empty), the CSV does hold
exactly the epoch-0 row `(0, obj_0, 0.5)`, but the metadata write of
lines 203-215 reads the never-bound loop variable `epoch` and raises
`NameError`, so no metadata file is produced. -/
theorem c2_zero_epoch_run (o : Oracle) (h : 0 < o.nCells) :
    (programRun o paramsZeroTraining).csvRows
      = [(0, paramsZeroTraining.volumeRatio ^ paramsZeroTraining.penal
            * o.psi0, 1/2)] ∧
    (programRun o paramsZeroTraining).metadata
      = Except.error "NameError: name epoch is not defined" := by
  have hep : loopEpochs paramsZeroTraining.maxEpochs = [] := rfl
  constructor
  · have havg : listAvg (List.replicate o.nCells (1/2 : ℚ)) = 1/2 :=
      listAvg_replicate o.nCells h (1/2)
    simp only [programRun, runEpochs, hep, List.foldl_nil, writeToCsv,
      initState, havg]
  · rfl

/-- C2 witness: the hypothesis holds for the concrete oracle, and the run
fails its metadata write. -/
theorem c2_witness :
    0 < testOracle.nCells ∧
    (programRun testOracle paramsZeroTraining).metadata
      = Except.error "NameError: name epoch is not defined" :=
  ⟨by decide, (c2_zero_epoch_run testOracle (by decide)).2⟩

/-- C7: `min_epochs` never affects the training computation: two runs
differing only in `min_epochs` have identical loop states and CSV rows,
and their metadata differ at most in the `Min epochs` entry. -/
theorem c7_min_epochs_dead (o : Oracle) (p : Params) (a b : ℕ) :
    (programRun o { p with minEpochs := a }).finalState
      = (programRun o { p with minEpochs := b }).finalState ∧
    (programRun o { p with minEpochs := a }).csvRows
      = (programRun o { p with minEpochs := b }).csvRows ∧
    (programRun o { p with minEpochs := a }).metadata
      = Except.map (fun m => { m with minEpochs := a })
          (programRun o { p with minEpochs := b }).metadata := by
  refine ⟨rfl, rfl, ?_⟩
  exact mkMetadata_minEpochs p a b
    (runEpochs o { p with minEpochs := b }
      (loopEpochs p.maxEpochs) (initState o { p with minEpochs := b })).epochVar
